import Mathlib

/-!
Shallow embedding of the ShopEase support-chat application (src/app.py,
src/config.py) for checking the natural-language specification.

Pure helpers (`detect_language`, the quick-action button computation, the
payload builders) are translated directly from their Python sources.
Stateful Streamlit code is embedded as explicit state passing over a
`SessionState` record; the hosted completion API and the file system are
inputs (a function from the request payload to an outcome, respectively an
explicit read outcome), so that transport failures and malformed files are
ordinary values.
-/

namespace ShopEase

/-- Python substring test `needle in hay` on lists of characters:
true iff `needle` occurs contiguously inside `hay` (the empty needle
always matches, as in Python). -/
def listContains (needle : List Char) : List Char → Bool
  | [] => needle.isEmpty
  | c :: rest => needle.isPrefixOf (c :: rest) || listContains needle rest

/-- Python `needle in hay` on strings. -/
def strContains (hay needle : String) : Bool :=
  listContains needle.data hay.data

/-- A character of the Devanagari Unicode block, the range `[ऀ-ॿ]`
of the regex in `detect_language` (app.py line 181). -/
def devanagariChar (c : Char) : Bool :=
  0x900 ≤ c.toNat && c.toNat ≤ 0x97F

/-- The romanized Hindi indicator words of `detect_language`
(app.py line 186). -/
def hindi_words : List String :=
  ["mera", "kya", "kahan", "kaise", "hai", "mein", "ka", "ki", "ko",
   "aur", "order", "karna", "chahta", "chahte"]

/-- The English indicator words of `detect_language` (app.py line 198). -/
def english_words : List String :=
  ["the", "and", "or", "but", "what", "how", "where", "when", "why",
   "is", "are", "can", "do", "does", "will", "would", "should", "could"]

/-- Python `str.lower()` as used by the app: a character-wise map.  The
app only compares against ASCII keyword lists (the Devanagari keyword
strings have no case), so the ASCII lower-casing of `Char.toLower`
matches Python on every input the code distinguishes. -/
def pyLower (s : String) : String :=
  ⟨s.data.map Char.toLower⟩

/-- The indicator-counting loops of `detect_language` (app.py lines
193-201): one pass over the word list, adding 1 whenever the word occurs
as a substring of the lower-cased text. -/
def countIndicators (words : List String) (text_lower : String) : Nat :=
  words.foldl (fun acc w => if strContains text_lower w then acc + 1 else acc) 0

/-- `detect_language` (app.py lines 178-204): Devanagari short-circuit,
then the keyword-count comparison on the lower-cased text. -/
def detect_language (text : String) : String :=
  if text.data.any devanagariChar then "hi"
  else
    let text_lower := pyLower text
    let hindi_indicators := countIndicators hindi_words text_lower
    let english_indicators := countIndicators english_words text_lower
    if hindi_indicators > english_indicators then "hi" else "en"

/-- A chat role, the `"role"` string of a message dict in app.py. -/
inductive Role where
  | user
  | assistant
  | system
deriving DecidableEq, Repr

/-- One transcript / payload entry, the dict
`{"role": ..., "content": ...}` of app.py. -/
structure Message where
  role : Role
  content : String
deriving DecidableEq, Repr

/-- Python `l[-n:]`: the trailing slice of at most `n` elements. -/
def lastN (n : Nat) (l : List α) : List α :=
  l.drop (l.length - n)

/-- The keyword set of the returns/refunds topic
(app.py line 291). -/
def return_keywords : List String := ["return", "refund", "रिटर्न"]

/-- The keyword set of the order/tracking topic (app.py line 303). -/
def order_keywords : List String := ["order", "tracking", "ऑर्डर"]

/-- The keyword set of the payment topic (app.py line 309). -/
def payment_keywords : List String := ["payment", "भुगतान"]

/-- The keyword set of the product topic (app.py line 315). -/
def product_keywords : List String := ["product", "उत्पाद"]

/-- The per-topic guard of `add_quick_action_buttons_streamlit`:
Python `any(word in response_text.lower() for word in kws)`. -/
def matchesTopic (response_text : String) (kws : List String) : Bool :=
  kws.any (fun w => strContains (pyLower response_text) w)

/-- The `buttons_to_show` computation of
`add_quick_action_buttons_streamlit` (app.py lines 286-319): a list of
(label, canned user utterance) pairs, built by scanning the four topic
keyword sets in source order and appending the locale-specific pairs of
each matching topic.  The Streamlit rendering of the buttons (lines
321-332) is UI and not part of the value. -/
def add_quick_action_buttons_streamlit (response_text : String)
    (user_lang : String) : List (String × String) :=
  let buttons_to_show : List (String × String) := []
  let buttons_to_show :=
    if matchesTopic response_text return_keywords then
      buttons_to_show ++
        (if user_lang = "hi" then
          [("🔄 रिटर्न शुरू करें", "मैं एक आइटम वापस करना चाहता हूं"),
           ("📋 रिटर्न पॉलिसी", "रिटर्न पॉलिसी क्या है?")]
        else
          [("🔄 Initiate Return", "I want to initiate a return"),
           ("📋 Return Policy", "What is your return policy?")])
    else buttons_to_show
  let buttons_to_show :=
    if matchesTopic response_text order_keywords then
      buttons_to_show ++
        (if user_lang = "hi" then
          [("📦 दूसरा ऑर्डर ट्रैक करें", "मैं दूसरा ऑर्डर ट्रैक करना चाहता हूं")]
        else
          [("📦 Track Another Order", "I want to track another order")])
    else buttons_to_show
  let buttons_to_show :=
    if matchesTopic response_text payment_keywords then
      buttons_to_show ++
        (if user_lang = "hi" then
          [("💳 भुगतान विधियां", "भुगतान की विधियां क्या हैं?")]
        else
          [("💳 Payment Methods", "What payment methods do you accept?")])
    else buttons_to_show
  let buttons_to_show :=
    if matchesTopic response_text product_keywords then
      buttons_to_show ++
        (if user_lang = "hi" then
          [("🛍️ अधिक उत्पाद", "मुझे और उत्पाद दिखाएं")]
        else
          [("🛍️ More Products", "Show me more products")])
    else buttons_to_show
  buttons_to_show

/-- The pairs the returns/refunds topic contributes (spec view of the
first block of `add_quick_action_buttons_streamlit`). -/
def returnButtons (t l : String) : List (String × String) :=
  if matchesTopic t return_keywords then
    if l = "hi" then
      [("🔄 रिटर्न शुरू करें", "मैं एक आइटम वापस करना चाहता हूं"),
       ("📋 रिटर्न पॉलिसी", "रिटर्न पॉलिसी क्या है?")]
    else
      [("🔄 Initiate Return", "I want to initiate a return"),
       ("📋 Return Policy", "What is your return policy?")]
  else []

/-- The pair the order/tracking topic contributes. -/
def orderButtons (t l : String) : List (String × String) :=
  if matchesTopic t order_keywords then
    if l = "hi" then
      [("📦 दूसरा ऑर्डर ट्रैक करें", "मैं दूसरा ऑर्डर ट्रैक करना चाहता हूं")]
    else [("📦 Track Another Order", "I want to track another order")]
  else []

/-- The pair the payment topic contributes. -/
def paymentButtons (t l : String) : List (String × String) :=
  if matchesTopic t payment_keywords then
    if l = "hi" then [("💳 भुगतान विधियां", "भुगतान की विधियां क्या हैं?")]
    else [("💳 Payment Methods", "What payment methods do you accept?")]
  else []

/-- The pair the product topic contributes. -/
def productButtons (t l : String) : List (String × String) :=
  if matchesTopic t product_keywords then
    if l = "hi" then [("🛍️ अधिक उत्पाद", "मुझे और उत्पाद दिखाएं")]
    else [("🛍️ More Products", "Show me more products")]
  else []

/-- The apology string the blocking client returns on any exception
(app.py line 268). -/
def apology_blocking (e : String) : String :=
  "😔 I apologize, but I encountered an error: " ++ e ++
    ". Please try again or contact human support."

/-- The apology string the streaming client yields on any exception
(app.py line 284). -/
def apology_stream (e : String) : String :=
  "😔 I apologize, but I encountered an error: " ++ e ++ "."

/-- The `llm_messages` list built by `generate_response` (app.py lines
246-254): the system message, the last 8 transcript messages, then the
current user input. -/
def build_blocking_payload (sys : String) (history : List Message)
    (user_input : String) : List Message :=
  ⟨Role.system, sys⟩ :: (lastN 8 history ++ [⟨Role.user, user_input⟩])

/-- `generate_response` (app.py lines 242-268).  The single
`client.chat.completions.create` call is the function argument `api`,
applied once to the assembled payload; its `Except` value is the
transport outcome (`.error e` standing for a raised exception `e`).
The `try`/`except Exception` wrapper makes the result a plain `String`:
no outcome propagates an exception to the caller. -/
def generate_response (sys : String) (history : List Message)
    (user_input : String) (api : List Message → Except String String) :
    String :=
  match api (build_blocking_payload sys history user_input) with
  | .ok reply => reply
  | .error e => apology_blocking e

/-- Behaviour of one streaming `create` call: the chunk contents the
iterator delivers (`none` for a chunk whose delta content is `None`,
skipped by the loop), then optionally an exception raised at `create`
time (empty `chunks`) or mid-iteration. -/
structure StreamBehavior where
  chunks : List (Option String)
  failure : Option String
deriving DecidableEq, Repr

/-- `generate_response_stream` (app.py lines 270-284): yields every
non-`None` chunk content, and on an exception yields the single apology
string instead of raising.  The returned list is the sequence of yielded
fragments. -/
def generate_response_stream (api_messages_payload : List Message)
    (api : List Message → StreamBehavior) : List String :=
  let b := api api_messages_payload
  b.chunks.filterMap id ++
    (match b.failure with
     | some e => [apology_stream e]
     | none => [])

/-- The `api_messages_payload` assembly of the streaming path (app.py
lines 460-469): the system message, the trailing 8-message slice
`history_plus_current`, then — only when the last transcript message is
a user message that is `not in` the slice — an extra copy of it. -/
def build_stream_payload (sys : String) (messages : List Message) :
    List Message :=
  let history_plus_current := lastN 8 messages
  let payload := ⟨Role.system, sys⟩ :: history_plus_current
  match messages.getLast? with
  | some m =>
      if m.role = Role.user ∧ m ∉ history_plus_current then
        payload ++ [⟨Role.user, m.content⟩]
      else payload
  | none => payload

/-- The per-session Streamlit state the controller reads and writes
(app.py lines 156-174): the transcript, the `processing` gate flag, the
pending quick-action trigger, and the auto-scroll flag.
(`voice_enabled` is cosmetic and not involved in any claim.) -/
structure SessionState where
  messages : List Message
  processing : Bool
  quick_action_trigger : Option String
  auto_scroll : Bool
deriving DecidableEq, Repr

/-- Python truthiness of an optional string: `None` and `""` are falsy. -/
def optTruthy : Option String → Bool
  | none => false
  | some s => !s.isEmpty

/-- The new-user-input block (app.py lines 399-417) as one transition.
`typed_prompt` is the value `st.chat_input` returned on this run.
First the quick-action trigger is consumed (when truthy and not
processing), then a truthy typed prompt overwrites
`new_user_prompt_content`; if the resulting content is truthy it is
appended as a user message and the gate flag is set. -/
def process_new_user_input (s : SessionState) (typed_prompt : Option String) :
    SessionState :=
  let consumed :=
    if optTruthy s.quick_action_trigger && !s.processing then
      ({ s with quick_action_trigger := none }, s.quick_action_trigger)
    else (s, none)
  let s1 := consumed.1
  let new_user_prompt_content :=
    if optTruthy typed_prompt && !s1.processing then typed_prompt
    else consumed.2
  if optTruthy new_user_prompt_content then
    { s1 with
        messages := s1.messages ++ [⟨Role.user, new_user_prompt_content.getD ""⟩],
        processing := true }
  else s1

/-- The guard of the response-generation block (app.py line 453):
`st.session_state.messages[-1]["role"] == "user"`.  (The code indexes
`[-1]` unconditionally; every reachable session has a nonempty
transcript, seeded with the greeting at line 159.) -/
def lastIsUser (messages : List Message) : Bool :=
  match messages.getLast? with
  | some m => m.role = Role.user
  | none => false

/-- The bot-response block (app.py lines 453-484) as one transition:
when the gate flag is set and the last transcript message is a user
message, the streaming payload is assembled, the stream is drained into
`full_response`, the assistant message is appended, the gate flag is
cleared and auto-scroll is requested.  `api` gives the behaviour of the
one streaming call made with the assembled payload. -/
def completion_step (sys : String) (api : List Message → StreamBehavior)
    (s : SessionState) : SessionState :=
  if s.processing && lastIsUser s.messages then
    let payload := build_stream_payload sys s.messages
    let full_response := String.join (generate_response_stream payload api)
    { s with
        messages := s.messages ++ [⟨Role.assistant, full_response⟩],
        processing := false,
        auto_scroll := true }
  else s

/-- Outcome of opening and JSON-decoding one catalog file: the two
exception classes the loaders catch, or the parsed record list. -/
inductive ReadOutcome (β : Type) where
  | fileNotFound
  | jsonDecodeError
  | parsed (records : List β)
deriving DecidableEq, Repr

/-- The Python exceptions of the loader bodies. -/
inductive PyExn where
  | fileNotFound
  | jsonDecodeError
deriving DecidableEq, Repr

/-- The `open` + `json.load` body shared by both loaders, before the
`except` clauses: raises (as an `Except.error`) on a missing or
malformed file. -/
def openAndParse {β : Type} : ReadOutcome β → Except PyExn (List β)
  | .fileNotFound => .error .fileNotFound
  | .jsonDecodeError => .error .jsonDecodeError
  | .parsed records => .ok records

/-- A non-fatal Streamlit banner (`st.error` / `st.warning`); neither
halts the app (`st.stop` is only reached by the credential check at
app.py line 99). -/
inductive UiDiag where
  | errorBanner (text : String)
  | warningBanner (text : String)
deriving DecidableEq, Repr

/-- `load_product_data` (app.py lines 115-127).  The codomain is
`Except PyExn` so that an uncaught exception would be visible as
`.error`; the two `except` clauses turn both failure outcomes into
`.ok ([], banner)`.  (Banner punctuation is elided.) -/
def load_product_data {β : Type} (oc : ReadOutcome β) :
    Except PyExn (List β × List UiDiag) :=
  match openAndParse oc with
  | .ok records => .ok (records, [])
  | .error .fileNotFound =>
      .ok ([], [UiDiag.errorBanner
        "products.json not found. Make sure it is in the data directory."])
  | .error .jsonDecodeError =>
      .ok ([], [UiDiag.errorBanner
        "Error decoding products.json. Please check file format."])

/-- `load_order_data` (app.py lines 129-141); the missing-file branch
emits a warning banner rather than an error banner. -/
def load_order_data {β : Type} (oc : ReadOutcome β) :
    Except PyExn (List β × List UiDiag) :=
  match openAndParse oc with
  | .ok records => .ok (records, [])
  | .error .fileNotFound =>
      .ok ([], [UiDiag.warningBanner
        "orders.json not found. Creating sample order data."])
  | .error .jsonDecodeError =>
      .ok ([], [UiDiag.errorBanner
        "Error decoding orders.json. Please check file format."])

/-! ## Theorems -/

/-- A counting fold with a unit increment computes the length of the
filtered list, shifted by the accumulator. -/
theorem foldl_count_eq_filter_length (p : String → Bool) (ws : List String)
    (n : Nat) :
    ws.foldl (fun acc w => if p w then acc + 1 else acc) n
      = n + (ws.filter p).length := by
  induction ws generalizing n with
  | nil => simp
  | cons w ws ih =>
    by_cases hp : p w
    · simp [hp, ih]
      omega
    · simp [hp, ih]

/-- The indicator loops of `detect_language` count how many keywords of
the list occur in the text, each contributing at most once. -/
theorem countIndicators_eq_filter_length (ws : List String) (t : String) :
    countIndicators ws t = (ws.filter (fun w => strContains t w)).length := by
  simpa using foldl_count_eq_filter_length (fun w => strContains t w) ws 0

/-- A falsy optional string. -/
theorem optTruthy_none : optTruthy none = false := rfl

/-- The trailing 8-slice of a list ending in `a` still ends in `a`. -/
theorem lastN_concat_getLast (l : List α) (a : α) :
    ∃ ys, lastN 8 (l ++ [a]) = ys ++ [a] := by
  unfold lastN
  have hle : (l ++ [a]).length - 8 ≤ l.length := by
    simp only [List.length_append, List.length_cons, List.length_nil]
    omega
  exact ⟨l.drop ((l ++ [a]).length - 8), List.drop_append_of_le_length hle⟩

/-- Claim C1: for every payload and any transport or API failure of the
completion endpoint, neither `generate_response` nor
`generate_response_stream` propagates the failure; each produces a
single user-facing apology string with the error detail spliced into it,
calling the endpoint exactly once (the `api` argument is applied to one
payload, with no retry). -/
theorem completion_failure_policy (sys : String) (history : List Message)
    (input : String) (payload : List Message) (e : String)
    (apiB : List Message → Except String String)
    (apiS : List Message → StreamBehavior)
    (hB : apiB (build_blocking_payload sys history input) = Except.error e)
    (hS : (apiS payload).failure = some e) :
    generate_response sys history input apiB = apology_blocking e ∧
    apology_blocking e =
      "😔 I apologize, but I encountered an error: " ++ e ++
        ". Please try again or contact human support." ∧
    generate_response_stream payload apiS =
      (apiS payload).chunks.filterMap id ++ [apology_stream e] ∧
    apology_stream e =
      "😔 I apologize, but I encountered an error: " ++ e ++ "." := by
  refine ⟨?_, rfl, ?_, rfl⟩
  · unfold generate_response
    rw [hB]
  · simp [generate_response_stream, hS]

/-- Witness for claim C1: both failure branches evaluated at a concrete
failing endpoint. -/
theorem completion_failure_policy_witness :
    generate_response "S" [] "x" (fun _ => Except.error "boom")
        = apology_blocking "boom" ∧
    apology_blocking "boom" =
      "😔 I apologize, but I encountered an error: " ++ "boom" ++
        ". Please try again or contact human support." ∧
    generate_response_stream []
        (fun _ => StreamBehavior.mk [some "a"] (some "boom")) =
      ((fun _ : List Message => StreamBehavior.mk [some "a"] (some "boom"))
          ([] : List Message)).chunks.filterMap id ++ [apology_stream "boom"] ∧
    apology_stream "boom" =
      "😔 I apologize, but I encountered an error: " ++ "boom" ++ "." :=
  completion_failure_policy "S" [] "x" [] "boom"
    (fun _ => Except.error "boom")
    (fun _ => StreamBehavior.mk [some "a"] (some "boom")) rfl rfl

/-- Claim C2: from any pre-submission transcript `pre`, once the gate
flag is set and the user message is appended, the completion step —
whatever the stream does, success or failure — clears the gate flag and
leaves the transcript equal to `pre` extended by exactly one user
message followed by one assistant message (length grows by exactly 2). -/
theorem completion_resolves_gate_and_growth (sys : String)
    (api : List Message → StreamBehavior) (pre : List Message) (c : String)
    (trig : Option String) (sc : Bool) :
    (completion_step sys api
        ⟨pre ++ [⟨Role.user, c⟩], true, trig, sc⟩).processing = false ∧
    (completion_step sys api ⟨pre ++ [⟨Role.user, c⟩], true, trig, sc⟩).messages
      = pre ++ [⟨Role.user, c⟩,
          ⟨Role.assistant, String.join (generate_response_stream
            (build_stream_payload sys (pre ++ [⟨Role.user, c⟩])) api)⟩] ∧
    (completion_step sys api
        ⟨pre ++ [⟨Role.user, c⟩], true, trig, sc⟩).messages.length
      = pre.length + 2 := by
  have hg : lastIsUser (pre ++ [⟨Role.user, c⟩]) = true := by
    simp [lastIsUser, List.getLast?_concat]
  refine ⟨?_, ?_, ?_⟩
  · simp [completion_step, hg]
  · simp [completion_step, hg]
  · simp [completion_step, hg, List.length_append]

/-- Claim C3: while the gate flag is set, the input-processing block is
the identity on the session state — a typed submission or pending
quick-action trigger appends no user message (so at most one completion
is in flight). -/
theorem awaiting_completion_rejects_input (s : SessionState)
    (typed : Option String) (h : s.processing = true) :
    process_new_user_input s typed = s := by
  simp [process_new_user_input, optTruthy_none, h]

/-- Witness for claim C3 at a concrete processing state. -/
theorem awaiting_completion_rejects_input_witness :
    process_new_user_input ⟨[], true, none, false⟩ (some "hello")
      = ⟨[], true, none, false⟩ :=
  awaiting_completion_rejects_input ⟨[], true, none, false⟩ (some "hello") rfl

/-- Claim C4 counterexample: with a pending, unconsumed suggestion and a
typed submission in the same run, the code accepts the typed submission
(the appended user message is the typed text, not the suggestion) while
clearing the suggestion — refuting the claim that a typed submission is
only accepted when no suggestion is pending-and-unconsumed. -/
theorem typed_overrides_pending_suggestion_cex :
    ((⟨[], false, some "I want to track my order", false⟩ :
        SessionState).quick_action_trigger ≠ none) ∧
    (process_new_user_input
        ⟨[], false, some "I want to track my order", false⟩
        (some "hello")).messages = [⟨Role.user, "hello"⟩] ∧
    (process_new_user_input
        ⟨[], false, some "I want to track my order", false⟩
        (some "hello")).quick_action_trigger = none := by
  decide

/-- Claim C4 (amended): in the idle state, exactly one user message is
appended per transition, drawn from the typed submission when one is
present (taking precedence over a pending suggestion, which is then
discarded) and otherwise from the pending suggestion; a truthy pending
suggestion is always cleared when read. -/
theorem input_source_resolution (s : SessionState) (typed : Option String)
    (h : s.processing = false) :
    (process_new_user_input s typed).messages =
      (if optTruthy typed then s.messages ++ [⟨Role.user, typed.getD ""⟩]
       else if optTruthy s.quick_action_trigger then
         s.messages ++ [⟨Role.user, s.quick_action_trigger.getD ""⟩]
       else s.messages) ∧
    (process_new_user_input s typed).quick_action_trigger =
      (if optTruthy s.quick_action_trigger then none
       else s.quick_action_trigger) ∧
    (process_new_user_input s typed).messages.length
      ≤ s.messages.length + 1 := by
  by_cases ht : optTruthy typed <;>
    by_cases hq : optTruthy s.quick_action_trigger <;>
    simp [process_new_user_input, optTruthy_none, h, ht, hq]

/-- Witness for amended claim C4 at a concrete idle state with both a
pending suggestion and a typed submission. -/
theorem input_source_resolution_witness :
    (process_new_user_input ⟨[], false, some "suggested", false⟩
        (some "typed")).messages =
      (if optTruthy (some "typed") then
        ([] : List Message) ++ [⟨Role.user, (some "typed").getD ""⟩]
       else if optTruthy (some "suggested") then
        ([] : List Message) ++ [⟨Role.user, (some "suggested").getD ""⟩]
       else ([] : List Message)) ∧
    (process_new_user_input ⟨[], false, some "suggested", false⟩
        (some "typed")).quick_action_trigger =
      (if optTruthy (some "suggested") then none else some "suggested") ∧
    (process_new_user_input ⟨[], false, some "suggested", false⟩
        (some "typed")).messages.length ≤ ([] : List Message).length + 1 :=
  input_source_resolution ⟨[], false, some "suggested", false⟩
    (some "typed") rfl

/-- Claim C5: `detect_language` returns the secondary locale exactly
when the text has a Devanagari character (checked first) or, failing
that, the Hindi indicator count over the lower-cased text strictly
exceeds the English indicator count; every other input — ties included —
yields the primary locale, and no third value occurs. -/
theorem detect_language_classification (text : String) :
    (detect_language text = "hi" ↔
      (text.data.any devanagariChar = true ∨
        (text.data.any devanagariChar = false ∧
          countIndicators english_words (pyLower text) <
            countIndicators hindi_words (pyLower text)))) ∧
    (detect_language text = "hi" ∨ detect_language text = "en") := by
  have hne : ("en" : String) ≠ "hi" := by decide
  unfold detect_language
  cases hdev : text.data.any devanagariChar with
  | true => simp
  | false =>
    by_cases hc : countIndicators english_words (pyLower text) <
        countIndicators hindi_words (pyLower text)
    · simp [hc, GT.gt]
    · simp [hc, hne, GT.gt]

/-- Claim C6 counterexample: on "mera order kahan hai" the code counts
5 Hindi keyword hits (mera, kahan, hai, ka inside kahan, and order) and
1 English keyword hit (or inside order) — not the 4 versus 0 the claim
states. -/
theorem detect_language_kw_counts_cex :
    countIndicators hindi_words (pyLower "mera order kahan hai") ≠ 4 ∧
    countIndicators english_words (pyLower "mera order kahan hai") ≠ 0 := by
  decide

/-- Claim C6 (amended): the Devanagari query classifies as the secondary
locale via the script check, the English query as the primary locale,
and the romanized Hindi query as the secondary locale — with exactly 5
Hindi keyword hits versus 1 English keyword hit. -/
theorem detect_language_examples :
    detect_language "मेरा ऑर्डर कहाँ है" = "hi" ∧
    ("मेरा ऑर्डर कहाँ है".data.any devanagariChar = true) ∧
    detect_language "where is my order" = "en" ∧
    detect_language "mera order kahan hai" = "hi" ∧
    countIndicators hindi_words (pyLower "mera order kahan hai") = 5 ∧
    countIndicators english_words (pyLower "mera order kahan hai") = 1 := by
  decide

/-- Claim C7 counterexample: a reply matching all four topics yields 5
button pairs, refuting the stated 0..4 length bound. -/
theorem quick_actions_length_cex :
    (add_quick_action_buttons_streamlit "return order payment product"
        "en").length = 5 := by
  decide

/-- Claim C7 (amended): the quick-action computation is the
concatenation, in the fixed priority order returns/refunds then
order/tracking then payment then product, of the locale-specific pairs
of each matching topic (2 pairs for returns/refunds, 1 for each other
topic), for a total length of at most 5. -/
theorem quick_actions_spec (t l : String) :
    add_quick_action_buttons_streamlit t l =
      returnButtons t l ++ orderButtons t l ++ paymentButtons t l ++
        productButtons t l ∧
    (add_quick_action_buttons_streamlit t l).length ≤ 5 ∧
    (returnButtons t l).length =
      (if matchesTopic t return_keywords then 2 else 0) ∧
    (orderButtons t l).length =
      (if matchesTopic t order_keywords then 1 else 0) ∧
    (paymentButtons t l).length =
      (if matchesTopic t payment_keywords then 1 else 0) ∧
    (productButtons t l).length =
      (if matchesTopic t product_keywords then 1 else 0) := by
  have h1 : add_quick_action_buttons_streamlit t l =
      returnButtons t l ++ orderButtons t l ++ paymentButtons t l ++
        productButtons t l := by
    unfold add_quick_action_buttons_streamlit returnButtons orderButtons
      paymentButtons productButtons
    by_cases h1 : matchesTopic t return_keywords <;>
      by_cases h2 : matchesTopic t order_keywords <;>
      by_cases h3 : matchesTopic t payment_keywords <;>
      by_cases h4 : matchesTopic t product_keywords <;>
      by_cases hl : l = "hi" <;>
      simp [h1, h2, h3, h4, hl]
  have hr : (returnButtons t l).length =
      (if matchesTopic t return_keywords then 2 else 0) := by
    by_cases h : matchesTopic t return_keywords <;> by_cases hl : l = "hi" <;>
      simp [returnButtons, h, hl]
  have ho : (orderButtons t l).length =
      (if matchesTopic t order_keywords then 1 else 0) := by
    by_cases h : matchesTopic t order_keywords <;> by_cases hl : l = "hi" <;>
      simp [orderButtons, h, hl]
  have hp : (paymentButtons t l).length =
      (if matchesTopic t payment_keywords then 1 else 0) := by
    by_cases h : matchesTopic t payment_keywords <;> by_cases hl : l = "hi" <;>
      simp [paymentButtons, h, hl]
  have hq : (productButtons t l).length =
      (if matchesTopic t product_keywords then 1 else 0) := by
    by_cases h : matchesTopic t product_keywords <;> by_cases hl : l = "hi" <;>
      simp [productButtons, h, hl]
  refine ⟨h1, ?_, hr, ho, hp, hq⟩
  rw [h1]
  simp only [List.length_append, hr, ho, hp, hq]
  by_cases a : matchesTopic t return_keywords <;>
    by_cases b : matchesTopic t order_keywords <;>
    by_cases c : matchesTopic t payment_keywords <;>
    by_cases d : matchesTopic t product_keywords <;>
    simp [a, b, c, d]

/-- Claim C8 counterexample: when the same user text occurs twice inside
the trailing 8-message window, the streaming payload contains that user
message twice — it is not deduplicated down to exactly one occurrence. -/
theorem stream_payload_duplicate_cex :
    (build_stream_payload "S"
        [⟨Role.user, "hi"⟩, ⟨Role.assistant, "x"⟩, ⟨Role.user, "hi"⟩]).count
      ⟨Role.user, "hi"⟩ = 2 := by
  decide

/-- Claim C8 (amended): for every nonempty transcript the streaming
payload is exactly the single system message followed by the last 8
transcript messages — the conditional dedup append never fires, because
the last transcript message always lies inside the trailing slice — and
the new (last) message is the final element of that slice, so it is
never omitted and never appended a second time by the dedup branch. -/
theorem stream_payload_spec (sys : String) (msgs : List Message) (m : Message)
    (h : msgs.getLast? = some m) :
    build_stream_payload sys msgs = ⟨Role.system, sys⟩ :: lastN 8 msgs ∧
    (lastN 8 msgs).getLast? = some m := by
  obtain ⟨ys, hys⟩ := List.getLast?_eq_some_iff.mp h
  subst hys
  obtain ⟨zs, hzs⟩ := lastN_concat_getLast ys m
  have hmem : m ∈ lastN 8 (ys ++ [m]) := by
    rw [hzs]
    simp
  constructor
  · unfold build_stream_payload
    simp [List.getLast?_concat, hmem]
  · rw [hzs, List.getLast?_concat]

/-- Witness for amended claim C8 at a singleton transcript. -/
theorem stream_payload_spec_witness :
    ([⟨Role.user, "hi"⟩] : List Message).getLast? = some ⟨Role.user, "hi"⟩ ∧
    build_stream_payload "S" [⟨Role.user, "hi"⟩]
      = ⟨Role.system, "S"⟩ :: lastN 8 [⟨Role.user, "hi"⟩] ∧
    (lastN 8 ([⟨Role.user, "hi"⟩] : List Message)).getLast?
      = some ⟨Role.user, "hi"⟩ :=
  ⟨by decide,
   (stream_payload_spec "S" [⟨Role.user, "hi"⟩] ⟨Role.user, "hi"⟩
     (by decide)).1,
   (stream_payload_spec "S" [⟨Role.user, "hi"⟩] ⟨Role.user, "hi"⟩
     (by decide)).2⟩

/-- Claim C9: on a missing or malformed catalog file each loader returns
the empty record list together with one non-fatal banner, and neither
loader lets any outcome escape as an exception (every outcome maps to
`Except.ok`). -/
theorem loaders_never_raise (β : Type) (oc : ReadOutcome β)
    (h : oc = ReadOutcome.fileNotFound ∨ oc = ReadOutcome.jsonDecodeError) :
    (∃ d, load_product_data oc = Except.ok ([], [d])) ∧
    (∃ d, load_order_data oc = Except.ok ([], [d])) ∧
    (∀ oc2 : ReadOutcome β, ∃ v, load_product_data oc2 = Except.ok v) ∧
    (∀ oc2 : ReadOutcome β, ∃ v, load_order_data oc2 = Except.ok v) := by
  refine ⟨?_, ?_, ?_, ?_⟩
  · rcases h with h | h <;> subst h <;> exact ⟨_, rfl⟩
  · rcases h with h | h <;> subst h <;> exact ⟨_, rfl⟩
  · intro oc2
    cases oc2 <;> exact ⟨_, rfl⟩
  · intro oc2
    cases oc2 <;> exact ⟨_, rfl⟩

/-- Witness for claim C9 at the missing-file outcome. -/
theorem loaders_never_raise_witness :
    ((ReadOutcome.fileNotFound : ReadOutcome Unit) = ReadOutcome.fileNotFound ∨
      (ReadOutcome.fileNotFound : ReadOutcome Unit)
        = ReadOutcome.jsonDecodeError) ∧
    (∃ d, load_product_data (ReadOutcome.fileNotFound : ReadOutcome Unit)
        = Except.ok ([], [d])) ∧
    (∃ d, load_order_data (ReadOutcome.fileNotFound : ReadOutcome Unit)
        = Except.ok ([], [d])) :=
  ⟨Or.inl rfl,
   (loaders_never_raise Unit ReadOutcome.fileNotFound (Or.inl rfl)).1,
   (loaders_never_raise Unit ReadOutcome.fileNotFound (Or.inl rfl)).2.1⟩

/-- Claim C10: on Devanagari-free text the classification is decided by
the two indicator counts; each count is a presence count — the number of
keywords of the fixed list occurring as substrings of the lower-cased
text, each contributing at most 1 however often it repeats — and a
keyword matches inside a longer word: the English indicator "or" is hit
by "order" and the Hindi indicator "ka" by "kahan". -/
theorem detect_language_presence_counts (text : String)
    (h : text.data.any devanagariChar = false) :
    detect_language text =
      (if countIndicators english_words (pyLower text) <
          countIndicators hindi_words (pyLower text) then "hi" else "en") ∧
    (∀ ws : List String,
      countIndicators ws (pyLower text) =
        (ws.filter (fun w => strContains (pyLower text) w)).length) ∧
    ("or" ∈ english_words ∧ strContains "order" "or" = true) ∧
    ("ka" ∈ hindi_words ∧ strContains "kahan" "ka" = true) := by
  refine ⟨?_, fun ws => countIndicators_eq_filter_length ws (pyLower text),
    ⟨by decide, by decide⟩, ⟨by decide, by decide⟩⟩
  unfold detect_language
  rw [h]
  simp [GT.gt]

/-- Witness for claim C10 on a concrete Devanagari-free text. -/
theorem detect_language_presence_counts_witness :
    ("mera order kahan hai".data.any devanagariChar = false) ∧
    (detect_language "mera order kahan hai" =
      (if countIndicators english_words (pyLower "mera order kahan hai") <
          countIndicators hindi_words (pyLower "mera order kahan hai")
        then "hi" else "en")) :=
  ⟨by decide,
   (detect_language_presence_counts "mera order kahan hai" (by decide)).1⟩

end ShopEase
